import Mathlib

/-!
# Verification of the `allyin_licensing` core

Shallow embedding of the licensing subsystem of this repository
(`backend/allyin_licensing/license_manager.py`,
`backend/allyin_licensing/machine_binding.py`,
`backend/allyin_licensing/exceptions.py`) together with proofs about the
claims of the specification.

Modelling conventions:
* Python byte strings are `List Nat` (each entry `< 256`); Python `str`
  values are Lean `String`.
* `base64.urlsafe_b64encode` / `urlsafe_b64decode` are modelled bit-exactly,
  including CPython's lenient (non-strict) decoder which skips characters
  outside the alphabet and discards unused trailing bits of the final
  base64 character.
* `datetime` values are a seven-field record compared lexicographically,
  exactly as `datetime` comparison behaves; `strftime`/`strptime` for the
  fixed format `%Y%m%dT%H%M%S` are implemented on the canonical
  fifteen-character form.
* Python `float`/`int` license durations cross into the key via string
  interpolation (`f"...{days}..."`); the embedding takes that interpolated
  string (`daysStr`) as the parameter, e.g. `"30"` for `30` and `"0.5"`
  for `0.5`.
* Functions that can raise return `Except`; the catch-all `try/except`
  of `validate_license_key` is the outer `match` turning any error into
  `(False, "License validation error: <message>")`.
-/

deriving instance DecidableEq for Except

namespace AllyIn

/-! ## Association lists (Python `dict` with string keys) -/

/-- A Python `dict` with string keys, insertion ordered. -/
abbrev AList (α : Type) : Type := List (String × α)

/-- `d.get(k)` / `k in d`: first binding wins (keys are unique in practice). -/
def alookup {α : Type} (k : String) : AList α → Option α
  | [] => none
  | (k', v) :: rest => if k' = k then some v else alookup k rest

/-- `d[k] = v`: replace the first binding of `k`, or append a new one. -/
def ainsert {α : Type} (k : String) (v : α) : AList α → AList α
  | [] => [(k, v)]
  | (k', v') :: rest => if k' = k then (k, v) :: rest else (k', v') :: ainsert k v rest

theorem alookup_ainsert_self {α : Type} (k : String) (v : α) (d : AList α) :
    alookup k (ainsert k v d) = some v := by
  induction d with
  | nil => simp [ainsert, alookup]
  | cons hd tl ih =>
    obtain ⟨k', v'⟩ := hd
    by_cases h : k' = k
    · simp [ainsert, alookup, h]
    · simp [ainsert, alookup, h, ih]

theorem alookup_ainsert_ne {α : Type} (k k' : String) (v : α) (d : AList α)
    (h : k ≠ k') : alookup k' (ainsert k v d) = alookup k' d := by
  induction d with
  | nil => simp [ainsert, alookup, h]
  | cons hd tl ih =>
    obtain ⟨k0, v0⟩ := hd
    by_cases h0 : k0 = k
    · subst h0
      simp [ainsert, alookup, h]
    · simp only [ainsert, if_neg h0]
      by_cases h1 : k0 = k'
      · simp [alookup, h1]
      · simp [alookup, h1, ih]

/-! ## Character / string helpers -/

/-- `str.split(<pipe>)` on a character list: separator-split keeping empty parts. -/
def splitOnCharList (c : Char) : List Char → List (List Char)
  | [] => [[]]
  | x :: xs =>
    if x = c then [] :: splitOnCharList c xs
    else
      match splitOnCharList c xs with
      | [] => [[x]]
      | h :: t => (x :: h) :: t

/-- Python `decoded.split(<pipe-char>)`. -/
def pySplitPipe (s : String) : List String :=
  (splitOnCharList '|' s.data).map String.mk

/-- Number of positions at which two equal-length strings differ. -/
def hammingStr (s t : String) : Nat :=
  ((s.data.zip t.data).filter (fun p => decide (p.1 ≠ p.2))).length

/-- Replace the character at index `i` (used to model a single-character flip). -/
def setCharAt (s : String) (i : Nat) (c : Char) : String :=
  String.mk (s.data.set i c)

/-- All characters are ASCII (`hmac.compare_digest` on `str` demands this). -/
def isAsciiStr (s : String) : Bool := s.data.all (fun c => c.toNat < 128)

def natDigitChar (n : Nat) : Char := Char.ofNat (48 + n)

def natToDigits : Nat → Nat → List Char
  | 0, _ => []
  | fuel + 1, n =>
    if n < 10 then [natDigitChar n]
    else natToDigits fuel (n / 10) ++ [natDigitChar (n % 10)]

/-- Decimal rendering of a natural number. -/
def natToString (n : Nat) : String := String.mk (natToDigits (n + 1) n)

/-- Zero-padded fixed-width decimal rendering (as `strftime` produces). -/
def padNum (w n : Nat) : String :=
  String.mk (List.replicate (w - (natToDigits (n + 1) n).length) '0' ++ natToDigits (n + 1) n)

def isDigitChar (c : Char) : Bool := 48 ≤ c.toNat ∧ c.toNat ≤ 57

def digitVal (c : Char) : Nat := c.toNat - 48

def digitsToNat (l : List Char) : Nat :=
  l.foldl (fun acc c => acc * 10 + digitVal c) 0

/-! ## Base64 (urlsafe alphabet), modelling `base64.urlsafe_b64encode/b64decode` -/

/-- The urlsafe base64 alphabet character for a 6-bit value. -/
def b64Char (n : Nat) : Char :=
  if n < 26 then Char.ofNat (65 + n)
  else if n < 52 then Char.ofNat (97 + (n - 26))
  else if n < 62 then Char.ofNat (48 + (n - 52))
  else if n = 62 then '-'
  else '_'

/-- Value of a base64 character. `urlsafe_b64decode` translates `-_` to `+/`
before decoding, so both alphabets are accepted. -/
def b64Val (c : Char) : Option Nat :=
  let n := c.toNat
  if 65 ≤ n ∧ n ≤ 90 then some (n - 65)
  else if 97 ≤ n ∧ n ≤ 122 then some (n - 97 + 26)
  else if 48 ≤ n ∧ n ≤ 57 then some (n - 48 + 52)
  else if c = '+' ∨ c = '-' then some 62
  else if c = '/' ∨ c = '_' then some 63
  else none

/-- `base64.urlsafe_b64encode` over a byte list, producing the padded text. -/
def b64EncodeList : List Nat → List Char
  | [] => []
  | [a] => [b64Char (a / 4), b64Char (a % 4 * 16), '=', '=']
  | [a, b] => [b64Char (a / 4), b64Char (a % 4 * 16 + b / 16), b64Char (b % 16 * 4), '=']
  | a :: b :: c :: rest =>
    b64Char (a / 4) :: b64Char (a % 4 * 16 + b / 16) ::
      b64Char (b % 16 * 4 + c / 64) :: b64Char (c % 64) :: b64EncodeList rest

def b64EncodeStr (bs : List Nat) : String := String.mk (b64EncodeList bs)

/-- CPython's non-strict base64 decoding loop (`binascii.a2b_base64`):
characters outside the alphabet are skipped, `=` at quad position two or
more closes the current quad, unused trailing bits of the final data
character are discarded, and the residue checks at the end produce the
familiar `Incorrect padding` errors. Arguments: input, quad position,
pending bits, count of data characters seen. -/
def b64DecodeLoop : List Char → Nat → Nat → Nat → Except String (List Nat)
  | [], 1, _, n =>
    .error ("Invalid base64-encoded string: number of data characters (" ++
      natToString n ++ ") cannot be 1 more than a multiple of 4")
  | [], 2, _, _ => .error "Incorrect padding"
  | [], 3, _, _ => .error "Incorrect padding"
  | [], _, _, _ => .ok []
  | c :: rest, q, l, n =>
    if c = '=' then
      if 2 ≤ q then b64DecodeLoop rest 0 0 n else b64DecodeLoop rest q l n
    else
      match b64Val c with
      | none => b64DecodeLoop rest q l n
      | some v =>
        match q with
        | 0 => b64DecodeLoop rest 1 v (n + 1)
        | 1 => (b64DecodeLoop rest 2 (v % 16) (n + 1)).map (fun bs => (l * 4 + v / 16) :: bs)
        | 2 => (b64DecodeLoop rest 3 (v % 4) (n + 1)).map (fun bs => (l * 16 + v / 4) :: bs)
        | _ => (b64DecodeLoop rest 0 0 (n + 1)).map (fun bs => (l * 64 + v) :: bs)

/-- `base64.urlsafe_b64decode(key.encode())`: UTF-8 encoding the key first is
immaterial because every byte of a multi-byte UTF-8 sequence lies outside
the base64 alphabet and is skipped, exactly as the corresponding character
is skipped here. -/
def pyB64Decode (s : String) : Except String (List Nat) :=
  b64DecodeLoop s.data 0 0 0

/-! ## UTF-8 -/

/-- UTF-8 encoding of one code point. -/
def utf8EncodeChar (c : Char) : List Nat :=
  let n := c.toNat
  if n < 0x80 then [n]
  else if n < 0x800 then [0xC0 + n / 64, 0x80 + n % 64]
  else if n < 0x10000 then [0xE0 + n / 4096, 0x80 + n / 64 % 64, 0x80 + n % 64]
  else [0xF0 + n / 262144, 0x80 + n / 4096 % 64, 0x80 + n / 64 % 64, 0x80 + n % 64]

/-- `s.encode()` — UTF-8 bytes of a string. -/
def utf8Encode (s : String) : List Nat := s.data.flatMap utf8EncodeChar

def isCont (b : Nat) : Bool := 0x80 ≤ b ∧ b ≤ 0xBF

/-- Strict UTF-8 decoding (as `bytes.decode()`), rejecting overlong forms,
surrogates and out-of-range code points. -/
def utf8DecodeList : List Nat → Option (List Char)
  | [] => some []
  | b :: rest =>
    if b < 0x80 then
      (utf8DecodeList rest).map (fun cs => Char.ofNat b :: cs)
    else
      match rest with
      | b2 :: rest2 =>
        if 0xC2 ≤ b ∧ b ≤ 0xDF ∧ isCont b2 then
          (utf8DecodeList rest2).map (fun cs => Char.ofNat ((b - 0xC0) * 64 + (b2 - 0x80)) :: cs)
        else
          match rest2 with
          | b3 :: rest3 =>
            if 0xE0 ≤ b ∧ b ≤ 0xEF ∧ isCont b2 ∧ isCont b3 ∧
                (b = 0xE0 → 0xA0 ≤ b2) ∧ (b = 0xED → b2 ≤ 0x9F) then
              (utf8DecodeList rest3).map
                (fun cs => Char.ofNat ((b - 0xE0) * 4096 + (b2 - 0x80) * 64 + (b3 - 0x80)) :: cs)
            else
              match rest3 with
              | b4 :: rest4 =>
                if 0xF0 ≤ b ∧ b ≤ 0xF4 ∧ isCont b2 ∧ isCont b3 ∧ isCont b4 ∧
                    (b = 0xF0 → 0x90 ≤ b2) ∧ (b = 0xF4 → b2 ≤ 0x8F) then
                  (utf8DecodeList rest4).map
                    (fun cs => Char.ofNat ((b - 0xF0) * 262144 + (b2 - 0x80) * 4096 +
                      (b3 - 0x80) * 64 + (b4 - 0x80)) :: cs)
                else none
              | [] => none
          | [] => none
      | [] => none

/-- `bytes.decode()` — strict UTF-8 decode of a byte list to a string. -/
def utf8Decode (bs : List Nat) : Option String :=
  (utf8DecodeList bs).map String.mk

/-- Message of the `UnicodeDecodeError` raised by `bytes.decode()` on
invalid UTF-8 (the exact CPython message also reports a byte offset; only
the shape `License validation error: <message>` matters to the spec). -/
def utf8DecodeErrMsg : String := "invalid utf-8 byte sequence"

/-! ## `datetime` with second/microsecond precision -/

/-- A `datetime.datetime` value. `strptime` produces `micro = 0`;
`datetime.now()` generally has `micro ≠ 0`. -/
structure DateTime where
  year : Nat
  month : Nat
  day : Nat
  hour : Nat
  minute : Nat
  second : Nat
  micro : Nat
deriving DecidableEq, Repr

/-- `a < b` on datetimes: lexicographic field comparison, exactly the
semantics of `datetime` ordering for in-range values. -/
def dtLt (a b : DateTime) : Bool :=
  if a.year ≠ b.year then a.year < b.year
  else if a.month ≠ b.month then a.month < b.month
  else if a.day ≠ b.day then a.day < b.day
  else if a.hour ≠ b.hour then a.hour < b.hour
  else if a.minute ≠ b.minute then a.minute < b.minute
  else if a.second ≠ b.second then a.second < b.second
  else a.micro < b.micro

/-- `dt.strftime("%Y%m%dT%H%M%S")`. -/
def strftime (d : DateTime) : String :=
  padNum 4 d.year ++ padNum 2 d.month ++ padNum 2 d.day ++ "T" ++
    padNum 2 d.hour ++ padNum 2 d.minute ++ padNum 2 d.second

def isLeapYear (y : Nat) : Bool := y % 4 = 0 ∧ (y % 100 ≠ 0 ∨ y % 400 = 0)

def daysInMonth (y m : Nat) : Nat :=
  if m = 2 then (if isLeapYear y then 29 else 28)
  else if m = 4 ∨ m = 6 ∨ m = 9 ∨ m = 11 then 30
  else 31

/-- The `ValueError` message of a failed `datetime.strptime` (CPython also
distinguishes range errors such as `day is out of range for month`; every
failure is folded into the format mismatch message here, since the caller
only ever sees it through the catch-all `License validation error:` path). -/
def strptimeErr (s : String) : String :=
  "time data \x27" ++ s ++ "\x27 does not match format \x27%Y%m%dT%H%M%S\x27"

/-- `datetime.strptime(s, "%Y%m%dT%H%M%S")` on the canonical fixed-width
fifteen-character form the generator emits, including the range validation
the `datetime` constructor performs. -/
def strptime (s : String) : Except String DateTime :=
  match s.data with
  | [y1, y2, y3, y4, m1, m2, d1, d2, t, h1, h2, mi1, mi2, s1, s2] =>
    if t = 'T' ∧ [y1, y2, y3, y4, m1, m2, d1, d2, h1, h2, mi1, mi2, s1, s2].all isDigitChar then
      let y := digitsToNat [y1, y2, y3, y4]
      let mo := digitsToNat [m1, m2]
      let da := digitsToNat [d1, d2]
      let ho := digitsToNat [h1, h2]
      let mi := digitsToNat [mi1, mi2]
      let se := digitsToNat [s1, s2]
      if 1 ≤ mo ∧ mo ≤ 12 ∧ 1 ≤ da ∧ da ≤ daysInMonth y mo ∧ ho ≤ 23 ∧ mi ≤ 59 ∧ se ≤ 59 then
        .ok ⟨y, mo, da, ho, mi, se, 0⟩
      else .error (strptimeErr s)
    else .error (strptimeErr s)
  | _ => .error (strptimeErr s)

/-- `dt.isoformat()` (microseconds omitted when zero, as CPython does). -/
def isoFormat (d : DateTime) : String :=
  padNum 4 d.year ++ "-" ++ padNum 2 d.month ++ "-" ++ padNum 2 d.day ++ "T" ++
    padNum 2 d.hour ++ ":" ++ padNum 2 d.minute ++ ":" ++ padNum 2 d.second ++
    (if d.micro = 0 then "" else "." ++ padNum 6 d.micro)

/-! ## Python `int()` -/

def isPySpace (c : Char) : Bool :=
  c = ' ' ∨ c = '\t' ∨ c = '\n' ∨ c = '\x0b' ∨ c = '\x0c' ∨ c = '\r'

/-- `int(s)`: optional surrounding whitespace, optional sign, decimal
digits; anything else raises `ValueError` with the message below. -/
def pyInt (s : String) : Except String Int :=
  let t := ((s.data.dropWhile isPySpace).reverse.dropWhile isPySpace).reverse
  let core : Int × List Char :=
    match t with
    | '-' :: rest => (-1, rest)
    | '+' :: rest => (1, rest)
    | l => (1, l)
  if core.2 ≠ [] ∧ core.2.all isDigitChar then
    .ok (core.1 * (digitsToNat core.2 : Int))
  else
    .error ("invalid literal for int() with base 10: \x27" ++ s ++ "\x27")

/-! ## Exceptions (`exceptions.py` and the builtins the manager raises) -/

/-- Python exceptions that can escape `generate_license_key`, together
with the licensing library's own exception classes from `exceptions.py`
(`CryptographicError`, `ConfigurationError` both derive `LicenseError`;
`ValueError` and `TypeError` are builtins, unrelated to that hierarchy). -/
inductive PyExc where
  | valueError (msg : String)
  | typeError (msg : String)
  | cryptographicError (msg : String)
  | configurationError (msg : String)
deriving DecidableEq, Repr

def PyExc.isCryptographicError : PyExc → Bool
  | .cryptographicError _ => true
  | _ => false

def PyExc.isConfigurationError : PyExc → Bool
  | .configurationError _ => true
  | _ => false

/-! ## `LicenseManager` configuration and records -/

/-- The object loaded by `serialization.load_pem_private_key`: either an
actual RSA private key (carrying its PSS-SHA256 signing function, which
returns raw signature bytes) or some other key type — the code checks
`isinstance(self.rsa_private_key, rsa.RSAPrivateKey)`. -/
inductive PrivKey where
  | rsa (sign : String → List Nat)
  | other

/-- The object loaded by `serialization.load_pem_public_key`; `verify`
returns whether PSS-SHA256 verification of (signature bytes, data)
succeeds — an exception inside `verify` is the `false` case. -/
inductive PubKey where
  | rsa (verify : List Nat → String → Bool)
  | other

/-- The per-instance state of a `LicenseManager` relevant to key
operations: `product_id`, the machine id of the current machine, the
HMAC-SHA256 hex digest function keyed by `self.secret_key`
(`hmac.new(self.secret_key, data, sha256).hexdigest()`), and the
optionally loaded RSA keys. -/
structure Config where
  product_id : String
  machine_id : String
  hmacHex : String → String
  rsa_private_key : Option PrivKey
  rsa_public_key : Option PubKey

/-- The `license_data` dict built by `generate_license_key`. `days` holds
the interpolated string form of the numeric argument (see module header). -/
structure GenLicenseData where
  product_id : String
  customer_id : String
  machine_id : String
  license_type : String
  start_date : String
  end_date : String
  days : String
  created_at : String
  sigtype : String
deriving DecidableEq, Repr

/-- The `license_data` dict built by `validate_license_key` (`days` has
been through `int(...)` there). -/
structure ValLicenseData where
  product_id : String
  customer_id : String
  machine_id : String
  license_type : String
  start_date : String
  end_date : String
  days : Int
  sigtype : String
  validated_at : String
deriving DecidableEq, Repr

/-- Second component of the `(bool, result)` pair both `validate_license_key`
and `install_license` return: a reason string or the license data dict. -/
inductive ValidateResult where
  | msg (s : String)
  | data (d : ValLicenseData)
deriving DecidableEq, Repr

/-! ## `generate_license_key` -/

/-- `LicenseManager.generate_license_key`. `now` is the `datetime.now()`
of the call; `endDt` is `datetime.now() + timedelta(days=days)` (timedelta
addition itself is plain calendar arithmetic not re-modelled here; the
resulting datetime is passed in). `daysStr` is the interpolated string
form of `days`. -/
def generate_license_key (cfg : Config) (customer_id daysStr license_type sigtype : String)
    (now endDt : DateTime) : Except PyExc (String × GenLicenseData) :=
  let start_date := strftime now
  let end_date := strftime endDt
  let license_data : GenLicenseData :=
    ⟨cfg.product_id, customer_id, cfg.machine_id, license_type,
      start_date, end_date, daysStr, strftime now, sigtype⟩
  let data_string :=
    cfg.product_id ++ "|" ++ customer_id ++ "|" ++ cfg.machine_id ++ "|" ++
      start_date ++ "|" ++ end_date ++ "|" ++ daysStr ++ "|" ++ license_type ++ "|" ++ sigtype
  if sigtype = "rsa" then
    match cfg.rsa_private_key with
    | none => .error (.valueError "RSA private key not loaded for signing.")
    | some .other => .error (.typeError "Loaded private key is not an RSA private key.")
    | some (.rsa sign) =>
      let signature := b64EncodeStr (sign data_string)
      .ok (b64EncodeStr (utf8Encode (data_string ++ "|" ++ signature)), license_data)
  else
    let signature := cfg.hmacHex data_string
    .ok (b64EncodeStr (utf8Encode (data_string ++ "|" ++ signature)), license_data)

/-! ## `validate_license_key` -/

/-- The catch-all `except Exception as e: return False, f"License
validation error: {str(e)}"`. -/
def licenseValidationError (e : String) : Bool × ValidateResult :=
  (false, .msg ("License validation error: " ++ e))

/-- The signature branch of `validate_license_key`: `.ok none` means the
check passed, `.ok (some m)` means `return False, m`, `.error e` is an
exception propagating to the outer catch-all. -/
def signatureCheck (cfg : Config) (sigtype signature data_string : String) :
    Except String (Option String) :=
  if sigtype = "rsa" then
    match cfg.rsa_public_key with
    | none => .ok (some "RSA public key not loaded for verification.")
    | some .other => .ok (some "Loaded public key is not an RSA public key.")
    | some (.rsa verify) =>
      match pyB64Decode signature with
      | .error e => .ok (some ("Invalid RSA signature: " ++ e))
      | .ok sigBytes =>
        if verify sigBytes data_string then .ok none
        else .ok (some "Invalid RSA signature: ")
  else
    let expected := cfg.hmacHex data_string
    if isAsciiStr signature ∧ isAsciiStr expected then
      if signature = expected then .ok none else .ok (some "Invalid HMAC signature")
    else
      .error "comparing strings with non-ASCII characters is not supported"

/-- The tail of `validate_license_key` once the nine fields are in hand:
product check, machine check, signature check, expiry check, `int(days)`. -/
def validateParts (cfg : Config) (now : DateTime)
    (p c m sd ed ds lt st sig : String) : Bool × ValidateResult :=
  let data_string :=
    p ++ "|" ++ c ++ "|" ++ m ++ "|" ++ sd ++ "|" ++ ed ++ "|" ++ ds ++ "|" ++ lt ++ "|" ++ st
  if p ≠ cfg.product_id then (false, .msg "Invalid product ID")
  else if m ≠ cfg.machine_id then (false, .msg "License key not valid for this machine")
  else
    match signatureCheck cfg st sig data_string with
    | .error e => licenseValidationError e
    | .ok (some reason) => (false, .msg reason)
    | .ok none =>
      match strptime ed with
      | .error e => licenseValidationError e
      | .ok endDt =>
        if dtLt endDt now then (false, .msg "License key has expired")
        else
          match pyInt ds with
          | .error e => licenseValidationError e
          | .ok n => (true, .data ⟨p, c, m, lt, sd, ed, n, st, strftime now⟩)

/-- The `len(parts) != 9` check plus unpacking of the split fields. -/
def validateFields (cfg : Config) (now : DateTime) : List String → Bool × ValidateResult
  | [p, c, m, sd, ed, ds, lt, st, sig] => validateParts cfg now p c m sd ed ds lt st sig
  | _ => (false, .msg "Invalid license key format")

/-- `LicenseManager.validate_license_key`. Total: every failure mode of
the Python code is a `(false, _)` value, never an exception. -/
def validate_license_key (cfg : Config) (now : DateTime) (key : String) :
    Bool × ValidateResult :=
  match pyB64Decode key with
  | .error e => licenseValidationError e
  | .ok bs =>
    match utf8Decode bs with
    | none => licenseValidationError utf8DecodeErrMsg
    | some decoded => validateFields cfg now (pySplitPipe decoded)

/-! ## Machine binding (`machine_binding.py`) -/

/-- Number of positions with equal characters
(`sum(1 for a, b in zip(fp1, fp2) if a == b)`). -/
def countMatches (l1 l2 : List Char) : Nat :=
  ((l1.zip l2).filter (fun p => decide (p.1 = p.2))).length

/-- `calculate_fingerprint_similarity`. Python divides two floats; the
value is modelled as the exact rational. `matches / len(fp1)` raises
`ZeroDivisionError` when both strings are empty; the function's own
`except` returns `0.0` in that case. -/
def calculate_fingerprint_similarity (fp1 fp2 : String) : ℚ :=
  if fp1.data.length ≠ fp2.data.length then 0
  else if fp1.data.length = 0 then 0
  else (countMatches fp1.data fp2.data : ℚ) / (fp1.data.length : ℚ)

/-- `validate_machine_binding`. `license_data` is the Python dict with
string values; absence of the `machine_fingerprint` key is the unbound
back-compat case. Nothing in the body can raise, so the
`MachineBindingError` wrapper is dead code. -/
def validate_machine_binding (license_data : AList String) (current_fingerprint : String) : Bool :=
  match alookup "machine_fingerprint" license_data with
  | none => true
  | some license_fingerprint =>
    if license_fingerprint = current_fingerprint then true
    else
      decide ((8 : ℚ) / 10 ≤ calculate_fingerprint_similarity license_fingerprint current_fingerprint)

/-! ## Persistent state (license file, installation file, trials file)

The Encrypted Store (spec §4.2) round-trips every blob it persists
(`decrypt (encrypt x) = x` under the same key); the filesystem state is
therefore modelled by the decrypted values, `none` standing for "file
absent". -/

/-- One user's trial entry: a Python dict with string values
(`first_install_date`, `user_id`, `product_id`). -/
abbrev TrialInfo : Type := AList String

/-- The decrypted `installation.dat` content written by `install_license`. -/
structure InstallationData where
  first_install_date : String
  machine_id : String
  product_id : String
deriving DecidableEq, Repr

/-- The three files owned by a `LicenseManager` instance. The license file
stores whatever dict `install_license` saved (the `result` of a successful
validation). -/
structure FS where
  license : Option ValidateResult
  installation : Option InstallationData
  trials : AList TrialInfo
deriving DecidableEq, Repr

/-- `LicenseManager._set_user_trial_info`: mutex-guarded read-modify-write
with the anti-overwrite guard on `first_install_date`. -/
def set_user_trial_info (user_id : String) (info : TrialInfo) (trials : AList TrialInfo) :
    AList TrialInfo :=
  let info' :=
    match alookup user_id trials with
    | some existing =>
      match alookup "first_install_date" existing with
      | some d => ainsert "first_install_date" d info
      | none => info
    | none => info
  ainsert user_id info' trials

/-- `LicenseManager.install_license`: validate, persist the result as the
license file, and write the installation file only if it does not exist. -/
def install_license (cfg : Config) (now : DateTime) (key : String) (s : FS) :
    (Bool × ValidateResult) × FS :=
  let v := validate_license_key cfg now key
  if v.1 = false then ((false, v.2), s)
  else
    let s1 : FS := { s with license := some v.2 }
    let s2 : FS :=
      if s1.installation.isNone then
        { s1 with installation := some ⟨isoFormat now, cfg.machine_id, cfg.product_id⟩ }
      else s1
    ((true, .msg "License installed successfully"), s2)

/-- `LicenseManager.revoke_license`: delete the license file if present. -/
def revoke_license (s : FS) : (Bool × String) × FS :=
  ((true, "License revoked"), { s with license := none })

/-- Result of `get_trial_status`: either the status dict, or the
`(None, "No installation found")` tuple of the machine-wide path. -/
inductive TrialStatusResult where
  | status (first_install_date : String) (days_elapsed trial_days days_remaining : ℚ)
      (is_trial_expired : Bool)
  | noInstall (msg : String)
deriving DecidableEq, Repr

/-- `get_trial_status` in machine-wide mode (`user_id is None`).
`diffDays d now` abstracts `(now - datetime.fromisoformat(d)).total_seconds() / 86400`.
Reads the installation file and never writes anything. -/
def get_trial_status_machine (trial_days : ℚ) (diffDays : String → DateTime → ℚ)
    (now : DateTime) (s : FS) : TrialStatusResult × FS :=
  match s.installation with
  | none => (.noInstall "No installation found", s)
  | some inst =>
    let elapsed := diffDays inst.first_install_date now
    (.status inst.first_install_date elapsed trial_days (max 0 (trial_days - elapsed))
      (decide (trial_days ≤ elapsed)), s)

/-- `get_trial_status` in per-user mode: create the trial record lazily on
first call, then report elapsed/remaining. A pre-existing record without a
`first_install_date` key makes line `trial_info['first_install_date']`
raise `KeyError` (the `.error` case). -/
def get_trial_status_user (cfg : Config) (trial_days : ℚ) (diffDays : String → DateTime → ℚ)
    (now : DateTime) (user_id : String) (s : FS) : Except String TrialStatusResult × FS :=
  match alookup user_id s.trials with
  | none =>
    let info : TrialInfo :=
      [("first_install_date", isoFormat now), ("user_id", user_id), ("product_id", cfg.product_id)]
    let s' : FS := { s with trials := set_user_trial_info user_id info s.trials }
    let elapsed := diffDays (isoFormat now) now
    (.ok (.status (isoFormat now) elapsed trial_days (max 0 (trial_days - elapsed))
      (decide (trial_days ≤ elapsed))), s')
  | some info =>
    match alookup "first_install_date" info with
    | none => (.error "KeyError: first_install_date", s)
    | some d =>
      let elapsed := diffDays d now
      (.ok (.status d elapsed trial_days (max 0 (trial_days - elapsed))
        (decide (trial_days ≤ elapsed))), s)

/-- The state-changing operations of a `LicenseManager` (read-only
accessors such as `get_current_license` do not touch the state). -/
inductive Op where
  | install (now : DateTime) (key : String)
  | revoke
  | trialStatusUser (now : DateTime) (user_id : String)
  | trialStatusMachine (now : DateTime)
  | setUserTrialInfo (user_id : String) (info : TrialInfo)

/-- State transition of one operation. -/
def step (cfg : Config) (trial_days : ℚ) (diffDays : String → DateTime → ℚ)
    (s : FS) : Op → FS
  | .install now key => (install_license cfg now key s).2
  | .revoke => (revoke_license s).2
  | .trialStatusUser now uid => (get_trial_status_user cfg trial_days diffDays now uid s).2
  | .trialStatusMachine now => (get_trial_status_machine trial_days diffDays now s).2
  | .setUserTrialInfo uid info => { s with trials := set_user_trial_info uid info s.trials }

/-- A whole run of operations. -/
def run (cfg : Config) (trial_days : ℚ) (diffDays : String → DateTime → ℚ)
    (s : FS) (ops : List Op) : FS :=
  ops.foldl (step cfg trial_days diffDays) s

/-! ## Helper lemmas -/

theorem countMatches_self (l : List Char) : countMatches l l = l.length := by
  induction l with
  | nil => rfl
  | cons a t ih =>
    simp only [countMatches, List.zip_cons_cons, List.filter_cons] at *
    simp [ih]

theorem countMatches_le_left (l1 l2 : List Char) : countMatches l1 l2 ≤ l1.length :=
  calc ((l1.zip l2).filter _).length ≤ (l1.zip l2).length := List.length_filter_le _ _
    _ ≤ l1.length := by rw [List.length_zip]; exact min_le_left _ _

theorem data_ne_nil_of_ne_empty {s : String} (h : s ≠ "") : s.data ≠ [] :=
  fun hd => h (String.ext (by rw [hd]))

/-- No `License validation error: <e>` message collides with the expiry
message (their lengths already differ). -/
theorem validationError_ne_expired (e : String) :
    "License validation error: " ++ e ≠ "License key has expired" := by
  intro h
  have hl := congrArg String.length h
  rw [String.length_append] at hl
  have h1 : ("License validation error: " : String).length = 26 := by decide
  have h2 : ("License key has expired" : String).length = 23 := by decide
  omega

/-- `validateFields` on anything but nine fields reports the format error. -/
theorem validateFields_ne_nine (cfg : Config) (now : DateTime) :
    ∀ (l : List String), l.length ≠ 9 →
      validateFields cfg now l = (false, .msg "Invalid license key format")
  | [], _ => rfl
  | [_], _ => rfl
  | [_, _], _ => rfl
  | [_, _, _], _ => rfl
  | [_, _, _, _], _ => rfl
  | [_, _, _, _, _], _ => rfl
  | [_, _, _, _, _, _], _ => rfl
  | [_, _, _, _, _, _, _], _ => rfl
  | [_, _, _, _, _, _, _, _], _ => rfl
  | [_, _, _, _, _, _, _, _, _], h => absurd rfl h
  | _ :: _ :: _ :: _ :: _ :: _ :: _ :: _ :: _ :: _ :: _, _ => rfl

/-- Once the installation file exists, no single operation changes it. -/
theorem installation_preserved_step (cfg : Config) (td : ℚ) (dd : String → DateTime → ℚ)
    (s : FS) (r : InstallationData) (op : Op) (h : s.installation = some r) :
    (step cfg td dd s op).installation = some r := by
  cases op with
  | install now key =>
    simp only [step, install_license]
    by_cases hv : (validate_license_key cfg now key).1 = false
    · simp [hv, h]
    · simp [hv, h]
  | revoke => simpa [step, revoke_license] using h
  | trialStatusUser now uid =>
    simp only [step, get_trial_status_user]
    split
    · simpa using h
    · split <;> simpa using h
  | trialStatusMachine now =>
    simp [step, get_trial_status_machine, h]
  | setUserTrialInfo uid info => simpa [step] using h

/-- Once the installation file exists, no sequence of operations changes it. -/
theorem installation_preserved_run (cfg : Config) (td : ℚ) (dd : String → DateTime → ℚ)
    (ops : List Op) :
    ∀ (s : FS) (r : InstallationData), s.installation = some r →
    (run cfg td dd s ops).installation = some r := by
  induction ops with
  | nil =>
    intro s r h
    simpa [run] using h
  | cons op rest ih =>
    intro s r h
    simp only [run, List.foldl_cons]
    exact ih _ _ (installation_preserved_step cfg td dd s r op h)

set_option maxRecDepth 1000000

/-! ## Claim C10 — `revoke_license` frame property -/

/-- **C10**: `revoke_license` touches only the license file: whatever the
prior state, the installation file and the trials file are unchanged, the
license file is removed, and the returned value is
`(True, "License revoked")` whether or not a license file existed. -/
theorem revoke_license_frame (s : FS) :
    (revoke_license s).2.installation = s.installation ∧
    (revoke_license s).2.trials = s.trials ∧
    (revoke_license s).2.license = none ∧
    (revoke_license s).1 = (true, "License revoked") :=
  ⟨rfl, rfl, rfl, rfl⟩

/-! ## Claim C5 — fingerprint similarity -/

/-- **C5 counterexample**: the claim says `similarity(fp, fp) == 1.0` for
*every* fingerprint string, but for the empty string the division
`matches / len(fp1)` raises `ZeroDivisionError`, which the function's own
`except` turns into `0.0`. -/
theorem similarity_empty_self_ne_one :
    calculate_fingerprint_similarity "" "" = 0 ∧
    calculate_fingerprint_similarity "" "" ≠ 1 := by
  constructor <;> norm_num [calculate_fingerprint_similarity]

/-- **C5** (amended): for every *nonempty* `fp`,
`similarity(fp, fp) = 1.0`; mismatched lengths yield `0.0`; for
equal-length nonempty inputs the result is the fraction of matching
character positions, always within `[0, 1]` (while
`similarity("", "") = 0.0`, not `1.0`). -/
theorem fingerprint_similarity_spec (fp fp1 fp2 : String)
    (h : fp ≠ "") (hlen : fp1.data.length = fp2.data.length) (h1 : fp1 ≠ "") :
    calculate_fingerprint_similarity fp fp = 1 ∧
    (∀ g1 g2 : String, g1.data.length ≠ g2.data.length →
      calculate_fingerprint_similarity g1 g2 = 0) ∧
    calculate_fingerprint_similarity fp1 fp2 =
      (countMatches fp1.data fp2.data : ℚ) / (fp1.data.length : ℚ) ∧
    0 ≤ calculate_fingerprint_similarity fp1 fp2 ∧
    calculate_fingerprint_similarity fp1 fp2 ≤ 1 := by
  have hfp : fp.data.length ≠ 0 := fun h0 => data_ne_nil_of_ne_empty h (List.length_eq_zero.mp h0)
  have hfp1 : fp1.data.length ≠ 0 :=
    fun h0 => data_ne_nil_of_ne_empty h1 (List.length_eq_zero.mp h0)
  have heq : calculate_fingerprint_similarity fp1 fp2 =
      (countMatches fp1.data fp2.data : ℚ) / (fp1.data.length : ℚ) := by
    have c1 : ¬(fp1.data.length ≠ fp2.data.length) := by simp [hlen]
    rw [calculate_fingerprint_similarity, if_neg c1, if_neg hfp1]
  refine ⟨?_, fun g1 g2 hne => by rw [calculate_fingerprint_similarity, if_pos hne], heq, ?_, ?_⟩
  · rw [calculate_fingerprint_similarity, if_neg (by simp), if_neg hfp, countMatches_self]
    exact div_self (Nat.cast_ne_zero.mpr hfp)
  · rw [heq]
    positivity
  · rw [heq]
    apply div_le_one_of_le₀
    · exact_mod_cast countMatches_le_left fp1.data fp2.data
    · positivity

/-- **C5 witness**. -/
theorem fingerprint_similarity_spec_witness :
    calculate_fingerprint_similarity "abcd" "abcd" = 1 ∧
    calculate_fingerprint_similarity "ab" "abc" = 0 ∧
    0 ≤ calculate_fingerprint_similarity "abcd" "abXd" ∧
    calculate_fingerprint_similarity "abcd" "abXd" ≤ 1 :=
  ⟨(fingerprint_similarity_spec "abcd" "abcd" "abXd" (by decide) (by decide) (by decide)).1,
   (fingerprint_similarity_spec "abcd" "abcd" "abXd" (by decide) (by decide)
      (by decide)).2.1 "ab" "abc" (by decide),
   (fingerprint_similarity_spec "abcd" "abcd" "abXd" (by decide) (by decide)
      (by decide)).2.2.2.1,
   (fingerprint_similarity_spec "abcd" "abcd" "abXd" (by decide) (by decide)
      (by decide)).2.2.2.2⟩

/-! ## Claim C7 — machine-binding tolerance -/

/-- **C7**: `validate_machine_binding` returns `True` when the license
carries no `machine_fingerprint`; otherwise it returns `True` exactly when
the stored and current fingerprints are equal or their similarity is at
least `0.8`, and `False` otherwise. -/
theorem machine_binding_tolerance (license_data : AList String) (cur : String) :
    (alookup "machine_fingerprint" license_data = none →
      validate_machine_binding license_data cur = true) ∧
    (∀ f, alookup "machine_fingerprint" license_data = some f →
      (validate_machine_binding license_data cur = true ↔
        (f = cur ∨ (8 : ℚ) / 10 ≤ calculate_fingerprint_similarity f cur))) := by
  constructor
  · intro h
    simp [validate_machine_binding, h]
  · intro f h
    simp only [validate_machine_binding, h]
    by_cases hf : f = cur
    · simp [hf]
    · simp [hf]

/-- **C7 witness**: a bound license with a 4-of-5 matching fingerprint
(similarity `0.8`) passes; an unbound license always passes. -/
theorem machine_binding_tolerance_witness :
    validate_machine_binding [("machine_fingerprint", "abcde")] "abcdX" = true ∧
    validate_machine_binding [] "anything" = true :=
  ⟨((machine_binding_tolerance [("machine_fingerprint", "abcde")] "abcdX").2 "abcde"
      rfl).mpr (Or.inr (by
        have h4 : countMatches ("abcde" : String).data ("abcdX" : String).data = 4 := by decide
        have h5 : ("abcde" : String).data.length = 5 := by decide
        have h5x : ("abcdX" : String).data.length = 5 := by decide
        rw [calculate_fingerprint_similarity, h5, h5x, h4]
        norm_num)),
   (machine_binding_tolerance [] "anything").1 rfl⟩

/-! ## Claim C6 — `first_install_date` immutability -/

/-- **C6**: `_set_user_trial_info` called twice for the same `user_id`
with different `first_install_date` values keeps the first value, and in
general any update of an existing user's entry preserves the original
`first_install_date`. -/
theorem first_install_date_immutable (trials : AList TrialInfo) (uid : String)
    (info1 info2 : TrialInfo) (d1 : String)
    (h0 : alookup uid trials = none)
    (h1 : alookup "first_install_date" info1 = some d1) :
    alookup uid (set_user_trial_info uid info2 (set_user_trial_info uid info1 trials)) =
      some (ainsert "first_install_date" d1 info2) ∧
    alookup "first_install_date" (ainsert "first_install_date" d1 info2) = some d1 ∧
    (∀ (tr : AList TrialInfo) (ex info : TrialInfo) (d : String),
      alookup uid tr = some ex → alookup "first_install_date" ex = some d →
      alookup uid (set_user_trial_info uid info tr) =
        some (ainsert "first_install_date" d info)) := by
  have hgen : ∀ (tr : AList TrialInfo) (ex info : TrialInfo) (d : String),
      alookup uid tr = some ex → alookup "first_install_date" ex = some d →
      alookup uid (set_user_trial_info uid info tr) =
        some (ainsert "first_install_date" d info) := by
    intro tr ex info d hex hd
    simp only [set_user_trial_info, hex, hd]
    exact alookup_ainsert_self uid _ tr
  have ht1 : alookup uid (set_user_trial_info uid info1 trials) = some info1 := by
    simp only [set_user_trial_info, h0]
    exact alookup_ainsert_self uid info1 trials
  exact ⟨hgen _ info1 info2 d1 ht1 h1, alookup_ainsert_self _ _ _, hgen⟩

/-- **C6 witness**: storing `D1`, then attempting to overwrite with `D2`,
leaves `D1` in the persisted record. -/
theorem first_install_date_immutable_witness :
    alookup "u" (set_user_trial_info "u" [("first_install_date", "D2")]
      (set_user_trial_info "u" [("first_install_date", "D1")] [])) =
      some [("first_install_date", "D1")] ∧
    alookup "first_install_date"
      (ainsert "first_install_date" "D1" [("first_install_date", "D2")]) = some "D1" := by
  have h := first_install_date_immutable [] "u" [("first_install_date", "D1")]
    [("first_install_date", "D2")] "D1" rfl rfl
  exact ⟨by rw [h.1]; rfl, h.2.1⟩

/-! ## Claim C4 — RSA misconfiguration raises builtins, not library errors -/

def c4Cfg : Config := ⟨"AllyIn", "m0", fun _ => "", none, none⟩

def c4CfgOther : Config := ⟨"AllyIn", "m0", fun _ => "", some .other, none⟩

def c4Now : DateTime := ⟨2026, 1, 1, 0, 0, 0, 0⟩

/-- **C4 counterexample**: with `sigtype="rsa"` and no RSA private key
configured, `generate_license_key` raises the builtin
`ValueError("RSA private key not loaded for signing.")` — not a
`CryptographicError` or `ConfigurationError` from `exceptions.py` as the
claim states (those classes exist but `license_manager.py` never raises
them here). -/
theorem generate_rsa_unconfigured_raises_builtin_error :
    generate_license_key c4Cfg "cust" "30" "trial" "rsa" c4Now c4Now =
      .error (.valueError "RSA private key not loaded for signing.") ∧
    PyExc.isCryptographicError (.valueError "RSA private key not loaded for signing.") = false ∧
    PyExc.isConfigurationError (.valueError "RSA private key not loaded for signing.") = false :=
  ⟨by decide, rfl, rfl⟩

/-- **C4** (amended): with `sigtype="rsa"`, a missing private key raises
`ValueError` and a loaded non-RSA private key raises `TypeError`; both are
exceptions propagated to the caller, never a `(False, reason)` return. -/
theorem generate_rsa_misconfiguration_raises (cfg : Config)
    (customer_id daysStr license_type : String) (now endDt : DateTime) :
    (cfg.rsa_private_key = none →
      generate_license_key cfg customer_id daysStr license_type "rsa" now endDt =
        .error (.valueError "RSA private key not loaded for signing.")) ∧
    (cfg.rsa_private_key = some .other →
      generate_license_key cfg customer_id daysStr license_type "rsa" now endDt =
        .error (.typeError "Loaded private key is not an RSA private key.")) := by
  constructor <;> intro h <;> simp [generate_license_key, h]

/-! ## Claim C3 — `InstallationRecord` lifecycle -/

def c3Cfg : Config := ⟨"AllyIn", "m0", fun _ => "h", none, none⟩

def emptyFS : FS := ⟨none, none, []⟩

def c3Now : DateTime := ⟨2026, 1, 1, 0, 0, 0, 0⟩

def zeroDiff : String → DateTime → ℚ := fun _ _ => 0

/-- A key `c3Cfg` accepts (HMAC digest modelled by the constant `"h"`). -/
def c3Key : String :=
  b64EncodeStr (utf8Encode "AllyIn|c|m0|20260101T000000|20370101T000000|30|trial|hmac|h")

def c3Inst : InstallationData := ⟨"2026-01-01T00:00:00", "m0", "AllyIn"⟩

def c3FSInst : FS := ⟨none, some c3Inst, []⟩

/-- **C3 counterexample**: on a machine with no installation record, the
first `get_trial_status` call without a `user_id` does *not* create the
machine-wide `InstallationRecord` — it returns
`(None, "No installation found")` and leaves the state untouched
(creation actually happens in `install_license`). -/
theorem trial_status_machine_does_not_create_installation :
    get_trial_status_machine 30 zeroDiff c3Now emptyFS =
      (.noInstall "No installation found", emptyFS) ∧
    (get_trial_status_machine 30 zeroDiff c3Now emptyFS).2.installation = none :=
  ⟨rfl, rfl⟩

/-- **C3** (amended): the machine-wide `InstallationRecord` is created on
the first successful `install_license` (not by `get_trial_status`, which
never modifies it and reports `No installation found` when absent);
once created it is never overwritten or mutated by any subsequent
operation, and no operation deletes it. -/
theorem installation_record_lifecycle (cfg : Config) (td : ℚ) (dd : String → DateTime → ℚ)
    (s : FS) (r : InstallationData) (ops : List Op) (now : DateTime) (key : String) :
    (s.installation = some r → ∀ op : Op, (step cfg td dd s op).installation = some r) ∧
    (s.installation = some r → (run cfg td dd s ops).installation = some r) ∧
    (get_trial_status_machine td dd now s).2 = s ∧
    (s.installation = none → (validate_license_key cfg now key).1 = true →
      (install_license cfg now key s).2.installation =
        some ⟨isoFormat now, cfg.machine_id, cfg.product_id⟩) := by
  refine ⟨fun h op => installation_preserved_step cfg td dd s r op h,
    fun h => installation_preserved_run cfg td dd ops s r h, ?_, ?_⟩
  · unfold get_trial_status_machine
    cases s.installation <;> rfl
  · intro hnone hv
    have hne : ¬((validate_license_key cfg now key).1 = false) := by simp [hv]
    simp [install_license, hne, hnone]

/-- **C3 witness**. -/
theorem installation_record_lifecycle_witness :
    (step c3Cfg 30 zeroDiff c3FSInst .revoke).installation = some c3Inst ∧
    (run c3Cfg 30 zeroDiff c3FSInst
      [.install c3Now c3Key, .revoke, .trialStatusMachine c3Now]).installation = some c3Inst ∧
    (install_license c3Cfg c3Now c3Key emptyFS).2.installation =
      some ⟨isoFormat c3Now, "m0", "AllyIn"⟩ := by
  have h := installation_record_lifecycle c3Cfg 30 zeroDiff c3FSInst c3Inst
    [.install c3Now c3Key, .revoke, .trialStatusMachine c3Now] c3Now c3Key
  have h2 := installation_record_lifecycle c3Cfg 30 zeroDiff emptyFS c3Inst [] c3Now c3Key
  exact ⟨h.1 rfl .revoke, h.2.1 rfl, h2.2.2.2 rfl (by decide)⟩

/-- **C4 witness**. -/
theorem generate_rsa_misconfiguration_raises_witness :
    generate_license_key c4Cfg "cust" "30" "trial" "rsa" c4Now c4Now =
      .error (.valueError "RSA private key not loaded for signing.") ∧
    generate_license_key c4CfgOther "cust" "30" "trial" "rsa" c4Now c4Now =
      .error (.typeError "Loaded private key is not an RSA private key.") :=
  ⟨(generate_rsa_misconfiguration_raises c4Cfg "cust" "30" "trial" c4Now c4Now).1 rfl,
   (generate_rsa_misconfiguration_raises c4CfgOther "cust" "30" "trial" c4Now c4Now).2 rfl⟩

/-! ## Claim C9 — malformed keys never raise -/

/-- **C9**: `validate_license_key` is total (the model is a total
function, mirroring the catch-all `try/except`): a base64 decode failure
is returned as `(False, "License validation error: <message>")`, an
undecodable byte string likewise, and a key splitting into anything but
nine pipe-delimited fields returns
`(False, "Invalid license key format")`. -/
theorem validate_malformed_total (cfg : Config) (now : DateTime) (key : String) :
    (∀ e, pyB64Decode key = .error e →
      validate_license_key cfg now key =
        (false, .msg ("License validation error: " ++ e))) ∧
    (∀ bs, pyB64Decode key = .ok bs → utf8Decode bs = none →
      validate_license_key cfg now key =
        (false, .msg ("License validation error: " ++ utf8DecodeErrMsg))) ∧
    (∀ bs decoded, pyB64Decode key = .ok bs → utf8Decode bs = some decoded →
      (pySplitPipe decoded).length ≠ 9 →
      validate_license_key cfg now key = (false, .msg "Invalid license key format")) := by
  refine ⟨?_, ?_, ?_⟩
  · intro e he
    simp [validate_license_key, he, licenseValidationError]
  · intro bs hbs hu
    simp [validate_license_key, hbs, hu, licenseValidationError]
  · intro bs decoded hbs hu hlen
    simp only [validate_license_key, hbs, hu]
    exact validateFields_ne_nine cfg now _ hlen

/-- **C9 witness**: `"QQ"` fails base64 decoding (`Incorrect padding`);
`"YWJj"` decodes to `"abc"`, which has one field instead of nine. -/
theorem validate_malformed_total_witness :
    validate_license_key c3Cfg c3Now "QQ" =
      (false, .msg "License validation error: Incorrect padding") ∧
    validate_license_key c3Cfg c3Now "YWJj" = (false, .msg "Invalid license key format") := by
  have h1 := validate_malformed_total c3Cfg c3Now "QQ"
  have h2 := validate_malformed_total c3Cfg c3Now "YWJj"
  exact ⟨h1.1 "Incorrect padding" (by decide),
    h2.2.2 [97, 98, 99] "abc" (by decide) (by decide) (by decide)⟩

/-! ## Claim C8 — strict expiry boundary -/

/-- **C8**: for a key that passes the format, product, machine and
signature checks and whose `end_date` parses to `e`, the validation
outcome is `(False, "License key has expired")` exactly when
`now > end_date` — a strict comparison, with no off-by-one at the
boundary. -/
theorem expiry_boundary_strict (cfg : Config) (now e : DateTime) (key : String)
    (bs : List Nat) (decoded : String) (c sd ed ds lt st sig : String)
    (h1 : pyB64Decode key = .ok bs)
    (h2 : utf8Decode bs = some decoded)
    (h3 : pySplitPipe decoded = [cfg.product_id, c, cfg.machine_id, sd, ed, ds, lt, st, sig])
    (h4 : signatureCheck cfg st sig (cfg.product_id ++ "|" ++ c ++ "|" ++ cfg.machine_id ++
      "|" ++ sd ++ "|" ++ ed ++ "|" ++ ds ++ "|" ++ lt ++ "|" ++ st) = .ok none)
    (h5 : strptime ed = .ok e) :
    (validate_license_key cfg now key = (false, .msg "License key has expired")) ↔
      dtLt e now = true := by
  simp only [validate_license_key, h1, h2, h3, validateFields, validateParts]
  rw [if_neg (by simp), if_neg (by simp)]
  simp only [h4, h5]
  by_cases hlt : dtLt e now = true
  · simp [hlt]
  · have hfalse : dtLt e now = false := by simpa using hlt
    simp only [hfalse, Bool.false_eq_true, if_false, iff_false]
    cases hpi : pyInt ds with
    | error e' =>
      simp only [hpi, licenseValidationError, Prod.mk.injEq, ValidateResult.msg.injEq]
      intro hmsg
      exact validationError_ne_expired e' hmsg.2
    | ok n =>
      simp [hpi]

def c8Now : DateTime := ⟨2026, 1, 1, 0, 0, 1, 0⟩

/-- An otherwise valid key whose `end_date` is one second before `c8Now`. -/
def c8KeyExpired : String :=
  b64EncodeStr (utf8Encode "AllyIn|c|m0|20260101T000000|20260101T000000|30|trial|hmac|h")

/-- An otherwise valid key whose `end_date` is one second after `c8Now`. -/
def c8KeyValid : String :=
  b64EncodeStr (utf8Encode "AllyIn|c|m0|20260101T000000|20260101T000002|30|trial|hmac|h")

/-- **C8 witness**: `end_date = now - 1s` is rejected as expired;
`end_date = now + 1s` passes the expiry check (and the whole validation). -/
theorem expiry_boundary_strict_witness :
    validate_license_key c3Cfg c8Now c8KeyExpired = (false, .msg "License key has expired") ∧
    validate_license_key c3Cfg c8Now c8KeyValid ≠ (false, .msg "License key has expired") ∧
    (validate_license_key c3Cfg c8Now c8KeyValid).1 = true := by
  have hE := expiry_boundary_strict c3Cfg c8Now ⟨2026, 1, 1, 0, 0, 0, 0⟩ c8KeyExpired
    (utf8Encode "AllyIn|c|m0|20260101T000000|20260101T000000|30|trial|hmac|h")
    "AllyIn|c|m0|20260101T000000|20260101T000000|30|trial|hmac|h"
    "c" "20260101T000000" "20260101T000000" "30" "trial" "hmac" "h"
    (by decide) (by decide) (by decide) (by decide) (by decide)
  have hV := expiry_boundary_strict c3Cfg c8Now ⟨2026, 1, 1, 0, 0, 2, 0⟩ c8KeyValid
    (utf8Encode "AllyIn|c|m0|20260101T000000|20260101T000002|30|trial|hmac|h")
    "AllyIn|c|m0|20260101T000000|20260101T000002|30|trial|hmac|h"
    "c" "20260101T000000" "20260101T000002" "30" "trial" "hmac" "h"
    (by decide) (by decide) (by decide) (by decide) (by decide)
  exact ⟨hE.mpr (by decide), fun hc => absurd (hV.mp hc) (by decide), by decide⟩

/-! ## Claim C1 — round trip, which breaks on fractional days -/

def c1Cfg : Config :=
  ⟨"AllyIn", "m0", fun _ => String.mk (List.replicate 64 'a'), none, none⟩

def c1Now : DateTime := ⟨2026, 1, 1, 0, 0, 0, 0⟩

/-- `datetime.now() + timedelta(days=0.5)`. -/
def c1End : DateTime := ⟨2026, 1, 1, 12, 0, 0, 0⟩

def c1Gen : Except PyExc (String × GenLicenseData) :=
  generate_license_key c1Cfg "cust" "0.5" "trial" "hmac" c1Now c1End

def c1Key : String :=
  match c1Gen with
  | .ok (k, _) => k
  | .error _ => ""

/-- **C1**: the round-trip claim fails for fractional `days`.
`generate_license_key` happily embeds `days=0.5` (the spec explicitly
allows fractional sub-day durations), but `validate_license_key` computes
`int(days)` on the decoded field, so `int("0.5")` raises `ValueError` and
the same-machine same-secret validation of the freshly generated key
returns `(False, "License validation error: ...")` instead of
`(True, matching_record)`. -/
theorem validate_rejects_generated_fractional_days_key :
    c1Gen = .ok (c1Key,
      ⟨"AllyIn", "cust", "m0", "trial", "20260101T000000", "20260101T120000", "0.5",
        "20260101T000000", "hmac"⟩) ∧
    validate_license_key c1Cfg c1Now c1Key =
      (false, .msg
        "License validation error: invalid literal for int() with base 10: \x270.5\x27") :=
  ⟨by decide, by decide⟩

/-! ## Claim C2 — tamper detection defeated by base64 malleability -/

def c2Cfg : Config :=
  ⟨"AllyIn", "m0", fun _ => String.mk (List.replicate 64 'a'), none, none⟩

def c2Now : DateTime := ⟨2026, 1, 1, 0, 0, 0, 0⟩

def c2End : DateTime := ⟨2027, 1, 1, 0, 0, 0, 0⟩

def c2Gen : Except PyExc (String × GenLicenseData) :=
  generate_license_key c2Cfg "c" "30" "trial" "hmac" c2Now c2End

def c2Key : String :=
  match c2Gen with
  | .ok (k, _) => k
  | .error _ => ""

/-- `c2Key` with the character at index 162 (the last non-padding base64
character, whose two low bits are not part of any decoded byte) flipped
from `E` to `F`. -/
def c2ModKey : String := setCharAt c2Key 162 'F'

def c2Rec : ValLicenseData :=
  ⟨"AllyIn", "c", "m0", "trial", "20260101T000000", "20270101T000000", 30, "hmac",
    "20260101T000000"⟩

/-- **C2**: flipping a single character of a generated key does *not*
always make validation fail: the payload length here is `122 ≡ 2 (mod 3)`
bytes, so the final base64 character carries two unused bits;
`base64.urlsafe_b64decode` (non-strict, as `validate_license_key` calls
it) ignores them, the flipped key decodes to the identical payload, and
validation still returns `(True, record)`. -/
theorem validate_accepts_single_char_flip :
    c2Gen = .ok (c2Key,
      ⟨"AllyIn", "c", "m0", "trial", "20260101T000000", "20270101T000000", "30",
        "20260101T000000", "hmac"⟩) ∧
    c2ModKey ≠ c2Key ∧
    c2Key.length = c2ModKey.length ∧
    hammingStr c2Key c2ModKey = 1 ∧
    validate_license_key c2Cfg c2Now c2Key = (true, .data c2Rec) ∧
    validate_license_key c2Cfg c2Now c2ModKey = (true, .data c2Rec) :=
  ⟨by decide, by decide, by decide, by decide, by decide, by decide⟩

end AllyIn
